import Mathlib

/-!
Shallow embedding of the `rtm-client` connection / correlation core.

Two client implementations coexist in the repository and are both embedded
here:

* the module-level functional client of `src/client.ts` (namespace `Client`),
  whose socket, pending-call table (`InvokeQueue`), outbound queue
  (`MessageQueue`), subscription table (`Subscriptions`) and `authenticated`
  flag live at module scope and are shared by every facade returned from
  `createClient`;
* the class-based `RtmClient` (namespace `RtmClient`), whose state lives in
  instance fields.

JavaScript values appearing in payloads are modelled by `JsValue`;
continuations (promise `resolve` / `reject` functions) and subscription
callbacks are modelled by numeric identifiers whose invocations are recorded
in a trace of `Effect`s.  `setTimeout` delays appear as `Effect.wait`.
-/

/-- A JavaScript value, as far as the client inspects payloads: the client
only ever tests truthiness (`Boolean(msg.data)`) and reads the optional
`error` field of a reply (`msg.data?.error`).  Object fields are restricted
to primitive values, which covers every payload the client itself examines. -/
inductive JsPrim where
  | pnull
  | pbool (b : Bool)
  | pnum (n : Int)
  | pstr (s : String)
  deriving DecidableEq, Repr

inductive JsValue where
  | undefined
  | null
  | bool (b : Bool)
  | num (n : Int)
  | str (s : String)
  | obj (fields : List (String × JsPrim))
  deriving DecidableEq, Repr

/-- JavaScript truthiness of a primitive. -/
def JsPrim.truthy : JsPrim → Bool
  | .pnull => false
  | .pbool b => b
  | .pnum n => n != 0
  | .pstr s => s != ""

/-- JavaScript truthiness (`Boolean(v)`); `NaN` is not modelled. -/
def JsValue.truthy : JsValue → Bool
  | .undefined => false
  | .null => false
  | .bool b => b
  | .num n => n != 0
  | .str s => s != ""
  | .obj _ => true

/-- Lift a primitive field value back into `JsValue`. -/
def JsPrim.toVal : JsPrim → JsValue
  | .pnull => .null
  | .pbool b => .bool b
  | .pnum n => .num n
  | .pstr s => .str s

/-- `v?.error`: optional chaining returns `undefined` on `null`/`undefined`,
and property access on a non-object primitive also yields `undefined`. -/
def JsValue.errField : JsValue → JsValue
  | .obj fields =>
      match fields.lookup "error" with
      | some p => p.toVal
      | none => .undefined
  | _ => .undefined

/-- Envelope kinds sent by the client (`type` field of `RTMMessage`). -/
inductive MsgType where
  | auth
  | invoke
  | subscribe
  deriving DecidableEq, Repr

/-- The `RTMMessage` record built by the facade operations.  The promise
`response` / `reject` functions are represented by continuation identifiers
(`Option Nat`); `none` models an absent field (fire-and-forget `Call`). -/
structure RTMMessage where
  id : Nat
  type : MsgType
  funcName : Option String := none
  event : Option String := none
  tags : Option (List String) := none
  data : List JsValue := []
  response : Option Nat := none
  rejectCont : Option Nat := none
  deriving DecidableEq, Repr

/-- The four WebSocket event handlers attached by the client. -/
inductive HandlerKind where
  | hopen
  | hclose
  | herror
  | hmessage
  deriving DecidableEq, Repr

/-- The transport handle: the address it was opened to and the handlers
attached to it. -/
structure SocketModel where
  addr : String
  handlers : List HandlerKind
  deriving DecidableEq, Repr

/-- The handler set attached both by `createClient` and by `reconnect`. -/
def SocketModel.allHandlers : List HandlerKind :=
  [.hopen, .hclose, .herror, .hmessage]

/-- Observable effects of one step of the client: continuation invocations,
socket operations, configured-callback invocation points and timer waits. -/
inductive Effect where
  | resolve (cont : Nat) (v : JsValue)
  | reject (cont : Nat) (v : JsValue)
  | send (m : RTMMessage)
  | socketClose
  | wait (ms : Nat)
  | cbOpen
  | cbClose
  | cbError (code : String)
  | cbReconnect (attempt : Nat)
  | cbAuthenticating
  deriving DecidableEq, Repr

/-- Association-list lookup (insertion-ordered map, as a JS `Map`). -/
def alookup {α β : Type} [DecidableEq α] : List (α × β) → α → Option β
  | [], _ => none
  | (k, v) :: rest, a => if k = a then some v else alookup rest a

/-- Association-list update with JS `Map.set` semantics: replace in place
when the key is present, append otherwise. -/
def aset {α β : Type} [DecidableEq α] : List (α × β) → α → β → List (α × β)
  | [], a, b => [(a, b)]
  | (k, v) :: rest, a, b =>
      if k = a then (a, b) :: rest else (k, v) :: aset rest a b

theorem alookup_aset_self {α β : Type} [DecidableEq α]
    (m : List (α × β)) (a : α) (b : β) : alookup (aset m a b) a = some b := by
  induction m with
  | nil => simp [aset, alookup]
  | cons p rest ih =>
      by_cases h : p.1 = a
      · simp [aset, alookup, h]
      · simp [aset, alookup, h, ih]

theorem length_aset_of_not_mem {α β : Type} [DecidableEq α]
    (m : List (α × β)) (a : α) (b : β) (h : alookup m a = none) :
    (aset m a b).length = m.length + 1 := by
  induction m with
  | nil => simp [aset]
  | cons p rest ih =>
      by_cases hk : p.1 = a
      · simp [alookup, hk] at h
      · simp [alookup, hk] at h
        simp [aset, hk, ih h]

theorem alookup_eq_none_of_forall_lt
    {β : Type} (m : List (Nat × β)) (n : Nat)
    (h : ∀ p ∈ m, p.1 < n) : alookup m n = none := by
  induction m with
  | nil => rfl
  | cons p rest ih =>
      have hp := h p (by simp)
      have hne : p.1 ≠ n := Nat.ne_of_lt hp
      simp only [alookup, hne, if_neg hne]
      exact ih fun q hq => h q (by simp [hq])

theorem mem_aset_of_mem {α β : Type} [DecidableEq α]
    (m : List (α × β)) (a : α) (b : β) (q : α × β)
    (hq : q ∈ aset m a b) : q ∈ m ∨ q = (a, b) := by
  induction m with
  | nil => simp [aset] at hq; simp [hq]
  | cons p rest ih =>
      by_cases hk : p.1 = a
      · simp [aset, hk] at hq
        rcases hq with h | h
        · right; simp [h]
        · left; simp [h]
      · simp [aset, hk] at hq
        rcases hq with h | h
        · left; simp [h]
        · rcases ih h with h' | h'
          · left; simp [h']
          · right; exact h'

namespace Client

/-!
Embedding of the module-level client of `src/client.ts`.  All mutable module
variables (`Socket`, `InvokeQueue`, `MessageQueue`, `authenticated`,
`address`, `options`, `Subscriptions`, `reconnectAttempt`) are gathered into
one `State`; the facade object returned by `createClient` is a set of
closures over that shared module state and is modelled by an opaque-tagged
`Handle`.  `uuidv4()` is modelled by the fresh-identifier counter `nextId`;
promise continuations come from the counter `nextCont`.
-/

/-- The recognized configuration keys of `RTMClientOptions` that the core
logic branches on; absent optional fields are the (falsy) defaults.  The
callbacks themselves are not stored: the points where the client would call
them are recorded as `Effect`s. -/
structure Options where
  enableMessageQueue : Bool := false
  reconnectDelayMs : Nat := 0
  deriving DecidableEq, Repr

/-- The module-scope state of `src/client.ts`. -/
structure State where
  socket : SocketModel
  socketOpen : Bool
  InvokeQueue : List (Nat × RTMMessage)
  MessageQueue : List RTMMessage
  authenticated : Bool
  address : String
  options : Options
  Subscriptions : List (String × List (Nat × Nat))
  reconnectAttempt : Nat
  nextId : Nat
  nextCont : Nat
  handleCount : Nat
  deriving DecidableEq, Repr

/-- The facade object returned by `createClient`: every method is a closure
over the module state, so the handle itself carries no client state beyond
an identity tag. -/
structure Handle where
  tag : Nat
  deriving DecidableEq, Repr

/-- Module state as initialized at import time, before any `createClient`
call (`Socket` is still unassigned, modelled by an empty placeholder). -/
def initModule : State :=
  { socket := { addr := "", handlers := [] }
    socketOpen := false
    InvokeQueue := []
    MessageQueue := []
    authenticated := false
    address := ""
    options := {}
    Subscriptions := []
    reconnectAttempt := 0
    nextId := 0
    nextCont := 0
    handleCount := 0 }

/-- `createClient(rtmAddress, rtmOptions)`: replaces the module `Socket`
with a fresh transport to `rtmAddress` carrying the four handlers, stores
the options and address, and returns a facade handle.  The module tables
and flags are NOT reset — they persist from any previous client. -/
def createClient (g : State) (rtmAddress : String) (rtmOptions : Options) :
    State × Handle :=
  ({ g with
      socket := { addr := rtmAddress, handlers := SocketModel.allHandlers }
      socketOpen := false
      address := rtmAddress
      options := rtmOptions
      handleCount := g.handleCount + 1 },
   { tag := g.handleCount })

/-- Facade `isAuthenticated()`: reads the module-scope `authenticated`
flag, whichever handle it is called through. -/
def isAuthenticated (g : State) (_h : Handle) : Bool :=
  g.authenticated

/-- Facade `getSocket()`: reads the module-scope `Socket`. -/
def getSocket (g : State) (_h : Handle) : SocketModel :=
  g.socket

/-- `onMessageResponse(msg)`: looks the reply id up in `InvokeQueue`; for an
`auth`-typed entry sets `authenticated = Boolean(msg.data)`; routes to the
entry's `reject` when `msg.data?.error` is truthy, else to its `response`.
The entry is never deleted from `InvokeQueue`. -/
def onMessageResponse (g : State) (id : Nat) (data : JsValue) :
    State × List Effect :=
  let msgInfo := alookup g.InvokeQueue id
  let g1 :=
    match msgInfo with
    | some mi => if mi.type = .auth then { g with authenticated := data.truthy } else g
    | none => g
  let effs :=
    if data.errField.truthy then
      match msgInfo with
      | some mi =>
          match mi.rejectCont with
          | some r => [Effect.reject r data.errField]
          | none => []
      | none => []
    else
      match msgInfo with
      | some mi =>
          match mi.response with
          | some r => [Effect.resolve r data]
          | none => []
      | none => []
  (g1, effs)

/-- The dispatch loop of `onSubscriptionMessage`: invokes the listeners in
registration order with the event payload; `throws l = true` models listener
`l` raising, which aborts the loop (there is no try/catch around the call).
Returns the trace of performed invocations, `Except.error` when the loop was
aborted by a raising listener (which is itself invoked last). -/
def runListeners (throws : Nat → Bool) (data : List JsValue) :
    List Nat → Except (List (Nat × List JsValue)) (List (Nat × List JsValue))
  | [] => .ok []
  | l :: rest =>
      if throws l then .error [(l, data)]
      else
        match runListeners throws data rest with
        | .ok tr => .ok ((l, data) :: tr)
        | .error tr => .error ((l, data) :: tr)

/-- `onSubscriptionMessage(msg)`: looks the event name up in
`Subscriptions` and runs every registered listener with the payload spread
positionally; a missing entry means nothing happens. -/
def onSubscriptionMessage (throws : Nat → Bool) (g : State)
    (event : String) (data : List JsValue) :
    Except (List (Nat × List JsValue)) (List (Nat × List JsValue)) :=
  match alookup g.Subscriptions event with
  | none => .ok []
  | some subs => runListeners throws data (subs.map Prod.snd)

/-- `authenticate(...params)` after its `waitForReadyState()` await: builds
an `auth` message with fresh id and resolve/reject continuations, registers
it in `InvokeQueue`, and sends it. -/
def authenticate (g : State) (params : List JsValue) : State × List Effect :=
  let msg : RTMMessage :=
    { id := g.nextId, type := .auth, data := params
      response := some g.nextCont, rejectCont := some (g.nextCont + 1) }
  ({ g with
      nextId := g.nextId + 1
      nextCont := g.nextCont + 2
      InvokeQueue := aset g.InvokeQueue msg.id msg },
   [Effect.send msg])

/-- Fire-and-forget `Call(func, ...data)` after its readiness await: the
registered entry carries no `response` / `reject` continuation. -/
def Call (g : State) (func : String) (data : List JsValue) :
    State × List Effect :=
  let msg : RTMMessage :=
    { id := g.nextId, type := .invoke, funcName := some func, data := data }
  ({ g with
      nextId := g.nextId + 1
      InvokeQueue := aset g.InvokeQueue msg.id msg },
   [Effect.send msg])

/-- `CallWait(func, ...data)`: registers a continuation-bearing `invoke`
entry, then either enqueues the envelope (socket not OPEN and
`enableMessageQueue` set) or sends it immediately. -/
def CallWait (g : State) (func : String) (data : List JsValue) :
    State × List Effect :=
  let msg : RTMMessage :=
    { id := g.nextId, type := .invoke, funcName := some func, data := data
      response := some g.nextCont, rejectCont := some (g.nextCont + 1) }
  let g1 :=
    { g with
        nextId := g.nextId + 1
        nextCont := g.nextCont + 2
        InvokeQueue := aset g.InvokeQueue msg.id msg }
  if g.socketOpen = false ∧ g.options.enableMessageQueue then
    ({ g1 with MessageQueue := g1.MessageQueue ++ [msg] }, [])
  else
    (g1, [Effect.send msg])

/-- `SubscribePush(eventName, tags, callback)` after its readiness await:
registers a `subscribe` entry in `InvokeQueue`, sends it, then immediately
registers the local listener under a fresh subscriber id — without waiting
for any server acknowledgment. -/
def SubscribePush (g : State) (eventName : String) (tags : List String)
    (callback : Nat) : State × List Effect :=
  let msg : RTMMessage :=
    { id := g.nextId, type := .subscribe, event := some eventName
      tags := some tags
      response := some g.nextCont, rejectCont := some (g.nextCont + 1) }
  let subId := g.nextId + 1
  let inner := (alookup g.Subscriptions eventName).getD []
  ({ g with
      nextId := g.nextId + 2
      nextCont := g.nextCont + 2
      InvokeQueue := aset g.InvokeQueue msg.id msg
      Subscriptions :=
        aset g.Subscriptions eventName (aset inner subId callback) },
   [Effect.send msg])

/-- Local-only `Subscribe(event, callback)`: registers the listener under a
fresh subscriber id; the returned unsubscribe capability is the
`(event, subscriberId)` pair it closes over. -/
def Subscribe (g : State) (event : String) (callback : Nat) :
    State × (String × Nat) :=
  let id := g.nextId
  let inner := (alookup g.Subscriptions event).getD []
  ({ g with
      nextId := g.nextId + 1
      Subscriptions := aset g.Subscriptions event (aset inner id callback) },
   (event, id))

/-- `closeClient()`: only calls `Socket.close()`; no module state changes
here (any further behavior comes from the transport's `close` event). -/
def closeClient (g : State) : State × List Effect :=
  (g, [Effect.socketClose])

/-- The `open` listener attached by `createClient`: fires `onOpen`, sends
every queued envelope in order, then empties `MessageQueue`.  It does not
touch `reconnectAttempt`. -/
def onOpenInitial (g : State) : State × List Effect :=
  ({ g with socketOpen := true, MessageQueue := [] },
   Effect.cbOpen :: g.MessageQueue.map Effect.send)

/-- `reconnect()`: awaits the configured delay, increments the attempt
counter, fires `onReconnect(attempt)`, and opens a fresh transport to the
stored address, re-attaching all four handlers. -/
def reconnect (g : State) : State × List Effect :=
  let attempt := g.reconnectAttempt + 1
  ({ g with
      reconnectAttempt := attempt
      socket := { addr := g.address, handlers := SocketModel.allHandlers }
      socketOpen := false },
   [Effect.wait g.options.reconnectDelayMs, Effect.cbReconnect attempt])

/-- The `open` listener attached by `reconnect`: fires `onOpen` and resets
the attempt counter to zero.  It does NOT flush `MessageQueue`. -/
def onOpenReconnect (g : State) : State × List Effect :=
  ({ g with socketOpen := true, reconnectAttempt := 0 }, [Effect.cbOpen])

/-- The `close` listener (same body in `createClient` and `reconnect`):
clears `authenticated`, fires `onClose`, and when a positive
`reconnectDelayMs` is configured starts `reconnect()` — unconditionally,
with no terminal-state check. -/
def onSocketCloseEvent (g : State) : State × List Effect :=
  let g1 := { g with socketOpen := false, authenticated := false }
  if 0 < g1.options.reconnectDelayMs then
    let r := reconnect g1
    (r.1, Effect.cbClose :: r.2)
  else
    (g1, [Effect.cbClose])

/-- One facade invocation or inbound correlated reply, for reasoning about
whole executions. -/
inductive TraceOp where
  | opCall (func : String) (data : List JsValue)
  | opCallWait (func : String) (data : List JsValue)
  | opAuth (params : List JsValue)
  | opSubPush (eventName : String) (tags : List String) (callback : Nat)
  | opReply (id : Nat) (data : JsValue)
  deriving DecidableEq, Repr

def stepOp (g : State) : TraceOp → State × List Effect
  | .opCall func data => Call g func data
  | .opCallWait func data => CallWait g func data
  | .opAuth params => authenticate g params
  | .opSubPush eventName tags callback => SubscribePush g eventName tags callback
  | .opReply id data => onMessageResponse g id data

def runOps (g : State) : List TraceOp → State
  | [] => g
  | op :: rest => runOps (stepOp g op).1 rest

/-- Number of pending-table-inserting invocations in a trace (everything
except inbound replies). -/
def countInvocations : List TraceOp → Nat
  | [] => 0
  | .opReply _ _ :: rest => countInvocations rest
  | _ :: rest => countInvocations rest + 1

end Client

namespace RtmClient

/-!
Embedding of the class-based `RtmClient` (the `RtmClient` class with
instance fields `Socket`, `InvokeQueue`, `MessageQueue`, `Options`,
`Subscriptions`, `Address`, `#reconnectAttempt`, `Authenticated`).  The
`async #onSocketConnected` handler awaits the auth round-trip; the reply the
server sends to the auth envelope is passed in as a parameter, and the
resolve/reject routing that `#onMessageResponse` applies to it is folded
into the handler.
-/

/-- The `RTMClientOptions` fields the class logic branches on; `Close()`
resets the whole record to `{}`, so both are optional. -/
structure Options where
  authenticationData : Option JsValue := none
  reconnectDelayMs : Option Nat := none
  deriving DecidableEq, Repr

/-- Instance state of one `RtmClient`. -/
structure State where
  Socket : SocketModel
  socketOpen : Bool
  InvokeQueue : List (Nat × RTMMessage)
  MessageQueue : List RTMMessage
  Options : Options
  Subscriptions : List (String × List (Nat × Nat))
  Address : String
  reconnectAttempt : Nat
  Authenticated : Bool
  nextId : Nat
  nextCont : Nat
  deriving DecidableEq, Repr

/-- The constructor: `Options = options || { reconnectDelayMs: 1000 }`; all
tables start fresh and empty; a transport to `address` is opened with the
four handlers attached. -/
def mk (address : String) (options : Option Options) : State :=
  { Socket := { addr := address, handlers := SocketModel.allHandlers }
    socketOpen := false
    InvokeQueue := []
    MessageQueue := []
    Options := options.getD { reconnectDelayMs := some 1000 }
    Subscriptions := []
    Address := address
    reconnectAttempt := 0
    Authenticated := false
    nextId := 0
    nextCont := 0 }

/-- `isAuthenticated` for the class client reads the instance field. -/
def isAuthenticated (s : State) : Bool :=
  s.Authenticated

/-- `Close()`: zeroes `reconnectDelayMs`, resets `Options` to `{}`, clears
the authenticated flag, the attempt counter and all three tables, and
closes the socket. -/
def Close (s : State) : State × List Effect :=
  ({ s with
      Options := {}
      Authenticated := false
      reconnectAttempt := 0
      InvokeQueue := []
      MessageQueue := []
      Subscriptions := [] },
   [Effect.socketClose])

/-- `#reconnect()`: awaits the delay, increments the attempt counter, fires
`onReconnecting(attempt)`, and opens a fresh transport to `Address` with the
four handlers re-attached. -/
def reconnect (s : State) : State × List Effect :=
  let attempt := s.reconnectAttempt + 1
  ({ s with
      reconnectAttempt := attempt
      Socket := { addr := s.Address, handlers := SocketModel.allHandlers }
      socketOpen := false },
   [Effect.wait (s.Options.reconnectDelayMs.getD 0), Effect.cbReconnect attempt])

/-- `#onSocketClose()`: clears `Authenticated`, fires `onClose`, and when a
positive `reconnectDelayMs` is configured starts `#reconnect()`. -/
def onSocketClose (s : State) : State × List Effect :=
  let s1 := { s with socketOpen := false, Authenticated := false }
  if 0 < s1.Options.reconnectDelayMs.getD 0 then
    let r := reconnect s1
    (r.1, Effect.cbClose :: r.2)
  else
    (s1, [Effect.cbClose])

/-- The outcome of `await this.#authenticate(...)`: `#onMessageResponse`
routes the server's reply to the registered entry's `reject` when
`data?.error` is truthy (the await then throws), else to its `response`
(the await then yields the reply data). -/
inductive AuthOutcome where
  | resolved (v : JsValue)
  | rejected (e : JsValue)
  deriving DecidableEq, Repr

def authOutcome (reply : JsValue) : AuthOutcome :=
  if reply.errField.truthy then .rejected reply.errField else .resolved reply

/-- `async #onSocketConnected()`, with `reply` the data of the server's
response to the auth envelope (unused when no `authenticationData` is
configured).  Without auth data: `onOpen`, flush the queue, reset the
attempt counter.  With auth data: `onAuthenticating`, register and send the
auth envelope; a rejected round-trip makes the `await` throw, aborting the
handler; a resolved truthy reply marks authenticated and proceeds to
`onOpen` and the flush; a resolved falsy reply fires
`onError(rtm/auth-error)` and `Close()`s. -/
def onSocketConnected (s : State) (reply : JsValue) : State × List Effect :=
  let s0 := { s with socketOpen := true }
  match s0.Options.authenticationData with
  | none =>
      ({ s0 with MessageQueue := [], reconnectAttempt := 0 },
       Effect.cbOpen :: s0.MessageQueue.map Effect.send)
  | some ad =>
      let msg : RTMMessage :=
        { id := s0.nextId, type := .auth, data := [ad]
          response := some s0.nextCont, rejectCont := some (s0.nextCont + 1) }
      let s1 :=
        { s0 with
            nextId := s0.nextId + 1
            nextCont := s0.nextCont + 2
            InvokeQueue := aset s0.InvokeQueue msg.id msg }
      let pre := [Effect.cbAuthenticating, Effect.send msg]
      match authOutcome reply with
      | .rejected e =>
          -- the await throws; nothing after it in the handler runs
          (s1, pre ++ [Effect.reject (s0.nextCont + 1) e])
      | .resolved v =>
          if v.truthy then
            ({ s1 with Authenticated := true, MessageQueue := [], reconnectAttempt := 0 },
             pre ++ [Effect.resolve s0.nextCont v, Effect.cbOpen]
               ++ s1.MessageQueue.map Effect.send)
          else
            let c := Close { s1 with Authenticated := false }
            (c.1,
             pre ++ [Effect.resolve s0.nextCont v,
                     Effect.cbError "rtm/auth-error"] ++ c.2)

end RtmClient

/-! ### Shared lemmas about the reply handler and the dispatch loop -/

theorem self_mem_aset {α β : Type} [DecidableEq α]
    (m : List (α × β)) (a : α) (b : β) : (a, b) ∈ aset m a b := by
  induction m with
  | nil => simp [aset]
  | cons p rest ih =>
      by_cases h : p.1 = a <;> simp [aset, h, ih]

theorem onMessageResponse_fst_InvokeQueue (g : Client.State) (id : Nat)
    (d : JsValue) :
    (Client.onMessageResponse g id d).1.InvokeQueue = g.InvokeQueue := by
  unfold Client.onMessageResponse
  cases alookup g.InvokeQueue id with
  | none => rfl
  | some mi => by_cases ht : mi.type = .auth <;> simp [ht]

theorem onMessageResponse_fst_Subscriptions (g : Client.State) (id : Nat)
    (d : JsValue) :
    (Client.onMessageResponse g id d).1.Subscriptions = g.Subscriptions := by
  unfold Client.onMessageResponse
  cases alookup g.InvokeQueue id with
  | none => rfl
  | some mi => by_cases ht : mi.type = .auth <;> simp [ht]

theorem onMessageResponse_fst_nextId (g : Client.State) (id : Nat)
    (d : JsValue) :
    (Client.onMessageResponse g id d).1.nextId = g.nextId := by
  unfold Client.onMessageResponse
  cases alookup g.InvokeQueue id with
  | none => rfl
  | some mi => by_cases ht : mi.type = .auth <;> simp [ht]

theorem onMessageResponse_snd_resolve (g : Client.State) (id : Nat)
    (d : JsValue) (mi : RTMMessage) (r : Nat)
    (hm : alookup g.InvokeQueue id = some mi)
    (hr : mi.response = some r)
    (hd : d.errField.truthy = false) :
    (Client.onMessageResponse g id d).2 = [Effect.resolve r d] := by
  unfold Client.onMessageResponse
  simp [hm, hd, hr]

theorem onMessageResponse_snd_reject (g : Client.State) (id : Nat)
    (d : JsValue) (mi : RTMMessage) (r : Nat)
    (hm : alookup g.InvokeQueue id = some mi)
    (hr : mi.rejectCont = some r)
    (hd : d.errField.truthy = true) :
    (Client.onMessageResponse g id d).2 = [Effect.reject r d.errField] := by
  unfold Client.onMessageResponse
  simp [hm, hd, hr]

theorem runListeners_ok_of_no_throw (throws : Nat → Bool) (data : List JsValue)
    (ls : List Nat) (h : ∀ l ∈ ls, throws l = false) :
    Client.runListeners throws data ls = .ok (ls.map fun l => (l, data)) := by
  induction ls with
  | nil => rfl
  | cons l rest ih =>
      have hl := h l (by simp)
      have hrest := ih fun x hx => h x (by simp [hx])
      simp [Client.runListeners, hl, hrest]

theorem runListeners_error_at_first_throw (throws : Nat → Bool)
    (data : List JsValue) (pre : List Nat) (t : Nat) (post : List Nat)
    (hpre : ∀ l ∈ pre, throws l = false) (ht : throws t = true) :
    Client.runListeners throws data (pre ++ t :: post)
      = .error ((pre.map fun l => (l, data)) ++ [(t, data)]) := by
  induction pre with
  | nil => simp [Client.runListeners, ht]
  | cons l rest ih =>
      have hl := hpre l (by simp)
      have hrest := ih fun x hx => hpre x (by simp [hx])
      simp [Client.runListeners, hl, hrest]

/-! ### C7 — reconnect pass behavior -/

/-- Claim C7 (confirmed): each pass of `reconnect()` waits the configured
`reconnectDelayMs`, increments the attempt counter by one, invokes the
reconnect callback with that attempt number, and opens a new transport to
the stored address with all four event handlers re-attached; the `open`
listener attached by `reconnect` resets the attempt counter to zero. -/
theorem reconnect_pass_behavior (g : Client.State) :
    (Client.reconnect g).1.reconnectAttempt = g.reconnectAttempt + 1 ∧
    (Client.reconnect g).2 =
      [Effect.wait g.options.reconnectDelayMs,
       Effect.cbReconnect (g.reconnectAttempt + 1)] ∧
    (Client.reconnect g).1.socket =
      { addr := g.address, handlers := SocketModel.allHandlers } ∧
    (Client.onOpenReconnect (Client.reconnect g).1).1.reconnectAttempt = 0 :=
  ⟨rfl, rfl, rfl, rfl⟩

/-! ### C8 — unknown-correlation replies -/

/-- Claim C8 (confirmed): a correlated reply whose id matches no entry in
the pending-call table is a complete no-op — the state is returned
unchanged and no continuation or callback is invoked. -/
theorem unknown_reply_noop (g : Client.State) (id : Nat) (d : JsValue)
    (h : alookup g.InvokeQueue id = none) :
    Client.onMessageResponse g id d = (g, []) := by
  unfold Client.onMessageResponse
  rw [h]
  by_cases he : d.errField.truthy <;> simp [he]

theorem unknown_reply_noop_witness :
    alookup Client.initModule.InvokeQueue 7 = none ∧
    Client.onMessageResponse Client.initModule 7 JsValue.null
      = (Client.initModule, []) :=
  ⟨rfl, unknown_reply_noop Client.initModule 7 JsValue.null rfl⟩

/-! ### C1 — duplicate reply handling -/

/-- A pending `auth` entry with a registered resolve continuation, as
`authenticate` would have produced it. -/
def exAuthEntry : RTMMessage :=
  { id := 0, type := .auth, data := [JsValue.str "tok"]
    response := some 5, rejectCont := some 6 }

def exState1 : Client.State :=
  { Client.initModule with InvokeQueue := [(0, exAuthEntry)], nextId := 1 }

/-- Claim C1 is false on the code: `onMessageResponse` never removes the
matched entry from `InvokeQueue`, and a second reply with the same id
invokes the continuation again and re-assigns the `authenticated` flag —
here the duplicate flips it from `true` back to `false`. -/
theorem duplicate_reply_not_noop :
    alookup (Client.onMessageResponse exState1 0 (JsValue.bool true)).1.InvokeQueue 0
      = some exAuthEntry ∧
    (Client.onMessageResponse exState1 0 (JsValue.bool true)).1.authenticated = true ∧
    (Client.onMessageResponse
        (Client.onMessageResponse exState1 0 (JsValue.bool true)).1
        0 (JsValue.bool false)).2
      = [Effect.resolve 5 (JsValue.bool false)] ∧
    (Client.onMessageResponse
        (Client.onMessageResponse exState1 0 (JsValue.bool true)).1
        0 (JsValue.bool false)).1.authenticated = false := by
  refine ⟨rfl, rfl, rfl, rfl⟩

/-- Claim C1 (corrected): a reply whose id matches a pending entry invokes
that entry's continuation, but the entry is NOT removed from the table;
consequently a second reply carrying the same id is processed identically —
it invokes the same continuation reference again rather than being a
no-op.  (Settling a JavaScript promise twice is absorbed by the promise
itself, but the client performs the resolution again and, for `auth`
entries, re-assigns the `authenticated` flag.) -/
theorem matched_reply_resolves_but_entry_persists (g : Client.State)
    (id : Nat) (d d' : JsValue) (mi : RTMMessage) (r : Nat)
    (hm : alookup g.InvokeQueue id = some mi)
    (hr : mi.response = some r)
    (hd : d.errField.truthy = false)
    (hd' : d'.errField.truthy = false) :
    (Client.onMessageResponse g id d).1.InvokeQueue = g.InvokeQueue ∧
    (Client.onMessageResponse g id d).2 = [Effect.resolve r d] ∧
    (Client.onMessageResponse
        (Client.onMessageResponse g id d).1 id d').2
      = [Effect.resolve r d'] := by
  refine ⟨onMessageResponse_fst_InvokeQueue g id d,
          onMessageResponse_snd_resolve g id d mi r hm hr hd, ?_⟩
  have hq := onMessageResponse_fst_InvokeQueue g id d
  have hm' : alookup (Client.onMessageResponse g id d).1.InvokeQueue id = some mi := by
    rw [hq]; exact hm
  exact onMessageResponse_snd_resolve _ id d' mi r hm' hr hd'

theorem matched_reply_resolves_but_entry_persists_witness :
    alookup exState1.InvokeQueue 0 = some exAuthEntry ∧
    exAuthEntry.response = some 5 ∧
    (JsValue.bool true).errField.truthy = false ∧
    (JsValue.bool false).errField.truthy = false ∧
    ((Client.onMessageResponse exState1 0 (JsValue.bool true)).1.InvokeQueue
        = exState1.InvokeQueue ∧
     (Client.onMessageResponse exState1 0 (JsValue.bool true)).2
        = [Effect.resolve 5 (JsValue.bool true)] ∧
     (Client.onMessageResponse
         (Client.onMessageResponse exState1 0 (JsValue.bool true)).1
         0 (JsValue.bool false)).2
        = [Effect.resolve 5 (JsValue.bool false)]) :=
  ⟨rfl, rfl, rfl, rfl,
   matched_reply_resolves_but_entry_persists exState1 0
     (JsValue.bool true) (JsValue.bool false) exAuthEntry 5 rfl rfl rfl rfl⟩

/-! ### C5 — subscription dispatch -/

def c5state : Client.State :=
  { Client.initModule with Subscriptions := [("price", [(0, 1), (1, 2)])] }

/-- Claim C5 is false on the code: the dispatch loop has no try/catch, so a
listener that throws aborts the loop.  With listeners `1` and `2`
registered on `"price"` and listener `1` throwing, only `(1, [42])` appears
in the invocation trace — sibling `2` is never invoked. -/
theorem throwing_listener_stops_siblings :
    alookup c5state.Subscriptions "price" = some [(0, 1), (1, 2)] ∧
    Client.onSubscriptionMessage (fun l => l == 1) c5state "price"
        [JsValue.num 42]
      = .error [(1, [JsValue.num 42])] := by
  refine ⟨rfl, rfl⟩

/-- Claim C5 (corrected): dispatch with no listeners registered for the
event is a silent no-op, and when no listener throws every
currently-registered listener is invoked in registration order with the
payload arguments; but a throwing listener aborts the dispatch loop, so the
siblings registered after the first throwing listener are NOT invoked. -/
theorem dispatch_order_and_abort (throws : Nat → Bool) (g : Client.State)
    (event : String) (data : List JsValue) :
    (alookup g.Subscriptions event = none →
      Client.onSubscriptionMessage throws g event data = .ok []) ∧
    (∀ subs, alookup g.Subscriptions event = some subs →
      (∀ l ∈ subs.map Prod.snd, throws l = false) →
      Client.onSubscriptionMessage throws g event data
        = .ok (subs.map fun p => (p.2, data))) ∧
    (∀ subs pre t post, alookup g.Subscriptions event = some subs →
      subs.map Prod.snd = pre ++ t :: post →
      (∀ l ∈ pre, throws l = false) → throws t = true →
      Client.onSubscriptionMessage throws g event data
        = .error ((pre.map fun l => (l, data)) ++ [(t, data)])) := by
  refine ⟨fun h => ?_, fun subs hs hnt => ?_, fun subs pre t post hs hsplit hpre ht => ?_⟩
  · simp [Client.onSubscriptionMessage, h]
  · have := runListeners_ok_of_no_throw throws data (subs.map Prod.snd) hnt
    simp only [Client.onSubscriptionMessage, hs, this, List.map_map]
    rfl
  · have := runListeners_error_at_first_throw throws data pre t post hpre ht
    simp only [Client.onSubscriptionMessage, hs, hsplit, this]

theorem dispatch_order_and_abort_witness :
    (alookup Client.initModule.Subscriptions "price" = none ∧
     Client.onSubscriptionMessage (fun _ => false) Client.initModule "price" []
       = .ok []) ∧
    (alookup c5state.Subscriptions "price" = some [(0, 1), (1, 2)] ∧
     Client.onSubscriptionMessage (fun _ => false) c5state "price"
         [JsValue.num 42]
       = .ok [(1, [JsValue.num 42]), (2, [JsValue.num 42])]) ∧
    (Client.onSubscriptionMessage (fun l => l == 2) c5state "price" []
       = .error [(1, []), (2, [])]) :=
  ⟨⟨rfl, (dispatch_order_and_abort (fun _ => false) Client.initModule "price" []).1 rfl⟩,
   ⟨rfl, (dispatch_order_and_abort (fun _ => false) c5state "price"
       [JsValue.num 42]).2.1 [(0, 1), (1, 2)] rfl (by decide)⟩,
   (dispatch_order_and_abort (fun l => l == 2) c5state "price" []).2.2
     [(0, 1), (1, 2)] [1] 2 [] rfl rfl (by decide) (by decide)⟩

/-! ### C2 — authentication round-trip -/

def c2options : RtmClient.Options :=
  { authenticationData := some (JsValue.str "tok"), reconnectDelayMs := some 0 }

def c2state : RtmClient.State := RtmClient.mk "ws://a" (some c2options)

def c2errReply : JsValue := JsValue.obj [("error", JsPrim.pstr "denied")]

/-- Claim C2 is false on the code for replies carrying an error indicator:
the auth promise is rejected, the `await` in the connected handler throws,
and the handler aborts — `onError` is never invoked with `rtm/auth-error`
(and `onOpen` does not fire either). -/
theorem auth_error_reply_skips_error_callback :
    c2errReply.errField.truthy = true ∧
    RtmClient.isAuthenticated
        (RtmClient.onSocketConnected c2state c2errReply).1 = false ∧
    Effect.cbOpen ∉ (RtmClient.onSocketConnected c2state c2errReply).2 ∧
    Effect.cbError "rtm/auth-error"
      ∉ (RtmClient.onSocketConnected c2state c2errReply).2 := by
  refine ⟨rfl, rfl, by decide, by decide⟩

/-- Claim C2 (corrected): with authentication configured, a truthy reply
(without error indicator) marks the client authenticated and fires
`onOpen`; a falsy reply without error indicator leaves it unauthenticated,
fires `onError(rtm/auth-error)` and never `onOpen`; but a reply carrying a
truthy error indicator rejects the auth promise and aborts the handler —
the authenticated flag is left unchanged and neither `onOpen` nor
`onError(rtm/auth-error)` is invoked. -/
theorem auth_roundtrip_behavior (s : RtmClient.State) (ad reply : JsValue)
    (hA : s.Options.authenticationData = some ad) :
    ((reply.errField.truthy = false ∧ reply.truthy = true) →
       RtmClient.isAuthenticated (RtmClient.onSocketConnected s reply).1 = true ∧
       Effect.cbOpen ∈ (RtmClient.onSocketConnected s reply).2) ∧
    ((reply.errField.truthy = false ∧ reply.truthy = false) →
       RtmClient.isAuthenticated (RtmClient.onSocketConnected s reply).1 = false ∧
       Effect.cbError "rtm/auth-error" ∈ (RtmClient.onSocketConnected s reply).2 ∧
       Effect.cbOpen ∉ (RtmClient.onSocketConnected s reply).2) ∧
    (reply.errField.truthy = true →
       (RtmClient.onSocketConnected s reply).1.Authenticated = s.Authenticated ∧
       Effect.cbOpen ∉ (RtmClient.onSocketConnected s reply).2 ∧
       Effect.cbError "rtm/auth-error"
         ∉ (RtmClient.onSocketConnected s reply).2) := by
  refine ⟨fun h => ?_, fun h => ?_, fun he => ?_⟩
  · obtain ⟨he, ht⟩ := h
    simp [RtmClient.onSocketConnected, hA, RtmClient.authOutcome, he,
          RtmClient.isAuthenticated, RtmClient.Close, ht]
  · obtain ⟨he, ht⟩ := h
    simp [RtmClient.onSocketConnected, hA, RtmClient.authOutcome, he,
          RtmClient.isAuthenticated, RtmClient.Close, ht]
  · simp [RtmClient.onSocketConnected, hA, RtmClient.authOutcome, he,
          RtmClient.isAuthenticated, RtmClient.Close]

theorem auth_roundtrip_behavior_witness :
    (c2state.Options.authenticationData = some (JsValue.str "tok")) ∧
    (((JsValue.bool true).errField.truthy = false ∧
        (JsValue.bool true).truthy = true) ∧
     (RtmClient.isAuthenticated
        (RtmClient.onSocketConnected c2state (JsValue.bool true)).1 = true ∧
      Effect.cbOpen ∈ (RtmClient.onSocketConnected c2state (JsValue.bool true)).2)) ∧
    (((JsValue.bool false).errField.truthy = false ∧
        (JsValue.bool false).truthy = false) ∧
     (RtmClient.isAuthenticated
        (RtmClient.onSocketConnected c2state (JsValue.bool false)).1 = false ∧
      Effect.cbError "rtm/auth-error"
        ∈ (RtmClient.onSocketConnected c2state (JsValue.bool false)).2 ∧
      Effect.cbOpen ∉ (RtmClient.onSocketConnected c2state (JsValue.bool false)).2)) :=
  ⟨rfl,
   ⟨⟨rfl, rfl⟩,
    (auth_roundtrip_behavior c2state (JsValue.str "tok") (JsValue.bool true)
      rfl).1 ⟨rfl, rfl⟩⟩,
   ⟨⟨rfl, rfl⟩,
    (auth_roundtrip_behavior c2state (JsValue.str "tok") (JsValue.bool false)
      rfl).2.1 ⟨rfl, rfl⟩⟩⟩

/-! ### C3 — close() terminality -/

def c3g0 : Client.State :=
  (Client.createClient Client.initModule "ws://a"
    { reconnectDelayMs := 1000 }).1

def c3g1 : Client.State := (Client.CallWait c3g0 "ping" []).1

/-- Claim C3 is false on the module-level client: `closeClient()` only
calls `Socket.close()`, clearing nothing, and the `close` listener then
still sees the configured positive `reconnectDelayMs` and starts
`reconnect()` — after `close()` a reconnect attempt (attempt 1) occurs and
the pending-call table is still populated. -/
theorem closeClient_not_terminal :
    (Client.closeClient c3g1).1 = c3g1 ∧
    Effect.cbReconnect 1
      ∈ (Client.onSocketCloseEvent (Client.closeClient c3g1).1).2 ∧
    (Client.onSocketCloseEvent (Client.closeClient c3g1).1).1.InvokeQueue
      = c3g1.InvokeQueue ∧
    c3g1.InvokeQueue ≠ [] := by
  refine ⟨rfl, by decide, rfl, by decide⟩

/-- Claim C3 (corrected): the class client's `Close()` is terminal — it
clears the pending-call table, the outbound queue and the subscription
table, resets `Options` (zeroing `reconnectDelayMs`), so the subsequent
transport `close` event fires `onClose` without any reconnect attempt; the
module-level `closeClient()` however changes no client state at all, so its
tables survive and a configured positive delay still reconnects. -/
theorem close_terminal_in_class_client (s : RtmClient.State)
    (g : Client.State) :
    (RtmClient.Close s).1.InvokeQueue = [] ∧
    (RtmClient.Close s).1.MessageQueue = [] ∧
    (RtmClient.Close s).1.Subscriptions = [] ∧
    (RtmClient.Close s).1.Options.reconnectDelayMs = none ∧
    (RtmClient.onSocketClose (RtmClient.Close s).1).2 = [Effect.cbClose] ∧
    (Client.closeClient g).1 = g :=
  ⟨rfl, rfl, rfl, rfl, rfl, rfl⟩

/-! ### C6 — ownership of client state -/

def c6first : Client.State × Client.Handle :=
  Client.createClient Client.initModule "ws://one" {}

def c6second : Client.State × Client.Handle :=
  Client.createClient c6first.1 "ws://two" {}

/-- The module state after an `authenticate` round-trip driven through the
second facade succeeds (the auth reply is truthy). -/
def c6afterAuth : Client.State :=
  (Client.onMessageResponse
    (Client.authenticate c6second.1 [JsValue.str "tok"]).1 0
    (JsValue.bool true)).1

/-- Claim C6 is false on the module-level client: the two facades returned
by two `createClient` calls are distinct, yet after an auth round-trip
performed through the second one, `isAuthenticated()` read through the
FIRST facade reports `true`, and `getSocket()` through the first facade
returns the socket the second `createClient` opened to `"ws://two"`. -/
theorem cross_instance_state_shared :
    c6first.2 ≠ c6second.2 ∧
    Client.isAuthenticated c6afterAuth c6first.2 = true ∧
    Client.getSocket c6afterAuth c6first.2
      = { addr := "ws://two", handlers := SocketModel.allHandlers } := by
  refine ⟨by decide, rfl, rfl⟩

/-- Claim C6 (corrected): only the class-based `RtmClient` owns its state
exclusively — its constructor initializes fresh empty tables and a cleared
flag per instance; the module-level `createClient` facades all close over
the single module-scope state, so `isAuthenticated` and `getSocket` return
the same answer through any two facade handles. -/
theorem instance_state_ownership (addr : String)
    (o : Option RtmClient.Options) (g : Client.State)
    (h h' : Client.Handle) :
    (RtmClient.mk addr o).InvokeQueue = [] ∧
    (RtmClient.mk addr o).MessageQueue = [] ∧
    (RtmClient.mk addr o).Subscriptions = [] ∧
    (RtmClient.mk addr o).Authenticated = false ∧
    Client.isAuthenticated g h = Client.isAuthenticated g h' ∧
    Client.getSocket g h = Client.getSocket g h' :=
  ⟨rfl, rfl, rfl, rfl, rfl, rfl⟩

/-! ### C4 — outbound queue FIFO flush -/

/-- A sequence of `CallWait` invocations, with their accumulated effects. -/
def runCallWaits :
    Client.State → List (String × List JsValue) → Client.State × List Effect
  | g, [] => (g, [])
  | g, (f, d) :: rest =>
      let r := Client.CallWait g f d
      let r2 := runCallWaits r.1 rest
      (r2.1, r.2 ++ r2.2)

/-- The envelopes a sequence of `CallWait`s issues, in issuance order,
starting from fresh-id counter `n` and continuation counter `c`. -/
def expectedEnvelopes :
    Nat → Nat → List (String × List JsValue) → List RTMMessage
  | _, _, [] => []
  | n, c, (f, d) :: rest =>
      { id := n, type := .invoke, funcName := some f, data := d
        response := some c, rejectCont := some (c + 1) }
        :: expectedEnvelopes (n + 1) (c + 2) rest

theorem CallWait_queued_fields (g : Client.State) (f : String)
    (d : List JsValue)
    (h1 : g.socketOpen = false) (h2 : g.options.enableMessageQueue = true) :
    (Client.CallWait g f d).2 = [] ∧
    (Client.CallWait g f d).1.MessageQueue
      = g.MessageQueue ++ expectedEnvelopes g.nextId g.nextCont [(f, d)] ∧
    (Client.CallWait g f d).1.socketOpen = false ∧
    (Client.CallWait g f d).1.options = g.options ∧
    (Client.CallWait g f d).1.nextId = g.nextId + 1 ∧
    (Client.CallWait g f d).1.nextCont = g.nextCont + 2 := by
  simp [Client.CallWait, h1, h2, expectedEnvelopes]

theorem runCallWaits_queue (calls : List (String × List JsValue)) :
    ∀ g : Client.State, g.socketOpen = false →
      g.options.enableMessageQueue = true →
      (runCallWaits g calls).2 = [] ∧
      (runCallWaits g calls).1.MessageQueue
        = g.MessageQueue ++ expectedEnvelopes g.nextId g.nextCont calls := by
  induction calls with
  | nil =>
      intro g _ _
      simp [runCallWaits, expectedEnvelopes]
  | cons p rest ih =>
      intro g h1 h2
      obtain ⟨f, d⟩ := p
      obtain ⟨hE, hM, hO, hOpt, hN, hC⟩ := CallWait_queued_fields g f d h1 h2
      obtain ⟨hE2, hM2⟩ :=
        ih (Client.CallWait g f d).1 hO (by rw [hOpt]; exact h2)
      constructor
      · simp only [runCallWaits]
        rw [hE, hE2]
        rfl
      · simp only [runCallWaits]
        rw [hM2, hM, hN, hC]
        simp [expectedEnvelopes, List.append_assoc]

/-- Claim C4 (corrected): when `enableMessageQueue` is configured, every
`CallWait` issued while the socket is not open appends its envelope to
`MessageQueue` in issuance order without sending anything, and the `open`
listener attached by `createClient` then fires `onOpen` and sends exactly
the queued envelopes in FIFO order, leaving the queue empty — nothing lost
or duplicated.  (Without `enableMessageQueue` the envelope is not queued at
all, and the `open` listener attached by `reconnect` never flushes the
queue; see the accompanying counterexample.) -/
theorem callWait_fifo_flush (g : Client.State)
    (calls : List (String × List JsValue))
    (h1 : g.socketOpen = false) (h2 : g.options.enableMessageQueue = true) :
    (runCallWaits g calls).2 = [] ∧
    (runCallWaits g calls).1.MessageQueue
      = g.MessageQueue ++ expectedEnvelopes g.nextId g.nextCont calls ∧
    (Client.onOpenInitial (runCallWaits g calls).1).2
      = Effect.cbOpen
          :: (runCallWaits g calls).1.MessageQueue.map Effect.send ∧
    (Client.onOpenInitial (runCallWaits g calls).1).1.MessageQueue = [] := by
  obtain ⟨a, b⟩ := runCallWaits_queue calls g h1 h2
  exact ⟨a, b, rfl, rfl⟩

def c4queueState : Client.State :=
  (Client.createClient Client.initModule "ws://a"
    { enableMessageQueue := true }).1

theorem callWait_fifo_flush_witness :
    c4queueState.socketOpen = false ∧
    c4queueState.options.enableMessageQueue = true ∧
    ((runCallWaits c4queueState [("a", []), ("b", [JsValue.num 1])]).2 = [] ∧
     (runCallWaits c4queueState [("a", []), ("b", [JsValue.num 1])]).1.MessageQueue
       = c4queueState.MessageQueue
           ++ expectedEnvelopes c4queueState.nextId c4queueState.nextCont
                [("a", []), ("b", [JsValue.num 1])] ∧
     (Client.onOpenInitial
        (runCallWaits c4queueState [("a", []), ("b", [JsValue.num 1])]).1).2
       = Effect.cbOpen
           :: (runCallWaits c4queueState
                [("a", []), ("b", [JsValue.num 1])]).1.MessageQueue.map
                Effect.send ∧
     (Client.onOpenInitial
        (runCallWaits c4queueState [("a", []), ("b", [JsValue.num 1])]).1).1.MessageQueue
       = []) :=
  ⟨rfl, rfl,
   callWait_fifo_flush c4queueState [("a", []), ("b", [JsValue.num 1])] rfl rfl⟩

def c4plainState : Client.State :=
  (Client.createClient Client.initModule "ws://a" {}).1

def c4queuedMsg : RTMMessage :=
  { id := 0, type := .invoke, funcName := some "ping"
    response := some 0, rejectCont := some 1 }

/-- Claim C4 is false as stated on the module-level client: without the
`enableMessageQueue` option (the default), a `CallWait` issued while the
socket is not open is NOT placed in the outbound queue — it is sent
straight away on the non-open socket; and even with a queued envelope, the
`open` listener attached by `reconnect` leaves the queue unflushed. -/
theorem callWait_not_queued_without_flag :
    c4plainState.socketOpen = false ∧
    (Client.CallWait c4plainState "ping" []).1.MessageQueue = [] ∧
    (Client.CallWait c4plainState "ping" []).2 = [Effect.send c4queuedMsg] ∧
    (Client.onOpenReconnect
        { c4plainState with MessageQueue := [c4queuedMsg] }).1.MessageQueue
      = [c4queuedMsg] := by
  refine ⟨rfl, rfl, rfl, rfl⟩

/-! ### C9 — pending-table growth -/

/-- Freshness invariant of the uuid counter: every key already in the
pending table is below the next generated id. -/
def Client.qBound (g : Client.State) : Prop :=
  ∀ p ∈ g.InvokeQueue, p.1 < g.nextId

theorem CallWait_fst_queue_fields (g : Client.State) (f : String)
    (d : List JsValue) :
    (Client.CallWait g f d).1.InvokeQueue
      = aset g.InvokeQueue g.nextId
          { id := g.nextId, type := .invoke, funcName := some f, data := d
            response := some g.nextCont, rejectCont := some (g.nextCont + 1) } ∧
    (Client.CallWait g f d).1.nextId = g.nextId + 1 := by
  by_cases hc : g.socketOpen = false ∧ g.options.enableMessageQueue = true <;>
    simp [Client.CallWait, hc]

theorem stepOp_length (g : Client.State) (op : Client.TraceOp)
    (hb : Client.qBound g) :
    Client.qBound (Client.stepOp g op).1 ∧
    (Client.stepOp g op).1.InvokeQueue.length
      = g.InvokeQueue.length + Client.countInvocations [op] := by
  have hnone : alookup g.InvokeQueue g.nextId = none :=
    alookup_eq_none_of_forall_lt _ _ hb
  cases op with
  | opCall f d =>
      refine ⟨?_, ?_⟩
      · intro p hp
        simp only [Client.stepOp, Client.Call] at hp ⊢
        rcases mem_aset_of_mem _ _ _ p hp with h | h
        · exact Nat.lt_succ_of_lt (hb p h)
        · rw [h]; exact Nat.lt_succ_self _
      · simp only [Client.stepOp, Client.Call, Client.countInvocations]
        rw [length_aset_of_not_mem _ _ _ hnone]
  | opCallWait f d =>
      obtain ⟨hq, hn⟩ := CallWait_fst_queue_fields g f d
      refine ⟨?_, ?_⟩
      · intro p hp
        simp only [Client.stepOp] at hp ⊢
        rw [hq] at hp
        rw [hn]
        rcases mem_aset_of_mem _ _ _ p hp with h | h
        · exact Nat.lt_succ_of_lt (hb p h)
        · rw [h]; exact Nat.lt_succ_self _
      · simp only [Client.stepOp, Client.countInvocations]
        rw [hq, length_aset_of_not_mem _ _ _ hnone]
  | opAuth params =>
      refine ⟨?_, ?_⟩
      · intro p hp
        simp only [Client.stepOp, Client.authenticate] at hp ⊢
        rcases mem_aset_of_mem _ _ _ p hp with h | h
        · exact Nat.lt_succ_of_lt (hb p h)
        · rw [h]; exact Nat.lt_succ_self _
      · simp only [Client.stepOp, Client.authenticate, Client.countInvocations]
        rw [length_aset_of_not_mem _ _ _ hnone]
  | opSubPush ev tags cb =>
      refine ⟨?_, ?_⟩
      · intro p hp
        simp only [Client.stepOp, Client.SubscribePush] at hp ⊢
        rcases mem_aset_of_mem _ _ _ p hp with h | h
        · exact Nat.lt_of_lt_of_le (hb p h) (by omega)
        · rw [h]; omega
      · simp only [Client.stepOp, Client.SubscribePush, Client.countInvocations]
        rw [length_aset_of_not_mem _ _ _ hnone]
  | opReply id d =>
      refine ⟨?_, ?_⟩
      · intro p hp
        simp only [Client.stepOp] at hp ⊢
        rw [onMessageResponse_fst_InvokeQueue] at hp
        rw [onMessageResponse_fst_nextId]
        exact hb p hp
      · simp only [Client.stepOp, Client.countInvocations]
        rw [onMessageResponse_fst_InvokeQueue]
        omega

theorem runOps_length (ops : List Client.TraceOp) :
    ∀ g : Client.State, Client.qBound g →
      Client.qBound (Client.runOps g ops) ∧
      (Client.runOps g ops).InvokeQueue.length
        = g.InvokeQueue.length + Client.countInvocations ops := by
  induction ops with
  | nil =>
      intro g hb
      exact ⟨hb, by simp [Client.runOps, Client.countInvocations]⟩
  | cons op rest ih =>
      intro g hb
      obtain ⟨hb1, hlen1⟩ := stepOp_length g op hb
      obtain ⟨hb2, hlen2⟩ := ih _ hb1
      refine ⟨hb2, ?_⟩
      simp only [Client.runOps] at hlen2 ⊢
      rw [hlen2, hlen1]
      cases op <;> simp [Client.countInvocations] <;> omega

theorem countInvocations_append (a b : List Client.TraceOp) :
    Client.countInvocations (a ++ b)
      = Client.countInvocations a + Client.countInvocations b := by
  induction a with
  | nil => simp [Client.countInvocations]
  | cons op rest ih =>
      cases op <;> simp [Client.countInvocations, ih] <;> omega

theorem initModule_qBound : Client.qBound Client.initModule := by
  intro p hp
  simp [Client.initModule] at hp

/-- Claim C9 (confirmed): starting from the initial module state, every
`call` / `callWait` / `authenticate` / `subscribePush` invocation inserts
one entry under a freshly generated id into `InvokeQueue` — the
fire-and-forget `call` entry having no continuations — and no inbound
reply ever removes an entry, so the table size always equals the number of
such invocations performed and never decreases along any execution. -/
theorem pending_table_counts_invocations
    (ops pre post : List Client.TraceOp) :
    (Client.runOps Client.initModule ops).InvokeQueue.length
      = Client.countInvocations ops ∧
    (Client.runOps Client.initModule pre).InvokeQueue.length
      ≤ (Client.runOps Client.initModule (pre ++ post)).InvokeQueue.length ∧
    (∀ g : Client.State, ∀ id : Nat, ∀ d : JsValue,
      (Client.onMessageResponse g id d).1.InvokeQueue = g.InvokeQueue) ∧
    (∀ g : Client.State, ∀ f : String, ∀ d : List JsValue, ∃ m : RTMMessage,
      alookup (Client.Call g f d).1.InvokeQueue g.nextId = some m ∧
      m.response = none ∧ m.rejectCont = none) := by
  refine ⟨?_, ?_, ?_, ?_⟩
  · have := (runOps_length ops Client.initModule initModule_qBound).2
    simpa [Client.initModule] using this
  · have h1 := (runOps_length pre Client.initModule initModule_qBound).2
    have h2 := (runOps_length (pre ++ post) Client.initModule initModule_qBound).2
    rw [h1, h2, countInvocations_append]
    simp [Client.initModule]
  · intro g id d
    exact onMessageResponse_fst_InvokeQueue g id d
  · intro g f d
    refine ⟨{ id := g.nextId, type := .invoke, funcName := some f, data := d },
            ?_, rfl, rfl⟩
    simp only [Client.Call]
    exact alookup_aset_self _ _ _

/-! ### C10 — subscribePush registration vs server acknowledgment -/

/-- Claim C10 (confirmed): `SubscribePush` registers the local listener
under a fresh subscriber id immediately, before any server reply is
processed; an error reply for the subscribe envelope rejects the pending
promise but leaves the subscription table untouched, so a later dispatch of
the event still invokes the listener (here run with no listener throwing). -/
theorem subscribePush_registers_before_ack (g : Client.State) (ev : String)
    (tags : List String) (cb : Nat) (d : JsValue) (data : List JsValue)
    (he : d.errField.truthy = true) :
    (∃ inner, alookup (Client.SubscribePush g ev tags cb).1.Subscriptions ev
        = some inner ∧ alookup inner (g.nextId + 1) = some cb) ∧
    (Client.onMessageResponse (Client.SubscribePush g ev tags cb).1
        g.nextId d).2
      = [Effect.reject (g.nextCont + 1) d.errField] ∧
    (Client.onMessageResponse (Client.SubscribePush g ev tags cb).1
        g.nextId d).1.Subscriptions
      = (Client.SubscribePush g ev tags cb).1.Subscriptions ∧
    (∃ tr, Client.onSubscriptionMessage (fun _ => false)
        (Client.onMessageResponse (Client.SubscribePush g ev tags cb).1
          g.nextId d).1 ev data
        = .ok tr ∧ (cb, data) ∈ tr) := by
  have hsubs : (Client.SubscribePush g ev tags cb).1.Subscriptions
      = aset g.Subscriptions ev
          (aset ((alookup g.Subscriptions ev).getD []) (g.nextId + 1) cb) := by
    simp [Client.SubscribePush]
  have hinner : alookup (Client.SubscribePush g ev tags cb).1.Subscriptions ev
      = some (aset ((alookup g.Subscriptions ev).getD []) (g.nextId + 1) cb) := by
    rw [hsubs]; exact alookup_aset_self _ _ _
  have hmsg : alookup (Client.SubscribePush g ev tags cb).1.InvokeQueue g.nextId
      = some { id := g.nextId, type := .subscribe, event := some ev
               tags := some tags
               response := some g.nextCont
               rejectCont := some (g.nextCont + 1) } := by
    simp only [Client.SubscribePush]
    exact alookup_aset_self _ _ _
  refine ⟨⟨_, hinner, alookup_aset_self _ _ _⟩, ?_,
          onMessageResponse_fst_Subscriptions _ _ _, ?_⟩
  · exact onMessageResponse_snd_reject _ _ _ _ _ hmsg rfl he
  · refine ⟨(aset ((alookup g.Subscriptions ev).getD []) (g.nextId + 1) cb).map
        (fun p => (p.2, data)), ?_, ?_⟩
    · have hr := runListeners_ok_of_no_throw (fun _ => false) data
        ((aset ((alookup g.Subscriptions ev).getD []) (g.nextId + 1) cb).map
          Prod.snd)
        (by intro l _; rfl)
      simp only [Client.onSubscriptionMessage,
        onMessageResponse_fst_Subscriptions, hinner, hr, List.map_map]
      rfl
    · exact List.mem_map_of_mem _
        (self_mem_aset ((alookup g.Subscriptions ev).getD []) (g.nextId + 1) cb)

def c10err : JsValue := JsValue.obj [("error", JsPrim.pstr "nope")]

theorem subscribePush_registers_before_ack_witness :
    c10err.errField.truthy = true ∧
    ((∃ inner,
        alookup (Client.SubscribePush Client.initModule "price" ["t"] 9).1.Subscriptions
          "price" = some inner ∧
        alookup inner (Client.initModule.nextId + 1) = some 9) ∧
     (Client.onMessageResponse
        (Client.SubscribePush Client.initModule "price" ["t"] 9).1
        Client.initModule.nextId c10err).2
       = [Effect.reject (Client.initModule.nextCont + 1) c10err.errField] ∧
     (Client.onMessageResponse
        (Client.SubscribePush Client.initModule "price" ["t"] 9).1
        Client.initModule.nextId c10err).1.Subscriptions
       = (Client.SubscribePush Client.initModule "price" ["t"] 9).1.Subscriptions ∧
     (∃ tr, Client.onSubscriptionMessage (fun _ => false)
        (Client.onMessageResponse
          (Client.SubscribePush Client.initModule "price" ["t"] 9).1
          Client.initModule.nextId c10err).1 "price" [JsValue.num 3]
        = .ok tr ∧ (9, [JsValue.num 3]) ∈ tr)) :=
  ⟨rfl,
   subscribePush_registers_before_ack Client.initModule "price" ["t"] 9
     c10err [JsValue.num 3] rfl⟩
